/-
Verification of the PolishBrush3D subsystem of margarets-nail-salon.

The development shallowly embeds the paint tooling of the repository:

* BristlePaintApplicator (the fallback direct rasterizer) from
  src/tools/PolishBrush3D/BristlePaintApplicator.js,
* FluidSimulator (the stable-fluids grid solver) from
  src/tools/PolishBrush3D/FluidSimulator.js,
* BristleSystem (Verlet bristle physics) from
  src/tools/PolishBrush3D/BristleSystem.js,
* BrushInputHandler and the PolishBrush3D controller.

JavaScript doubles are modelled as exact numbers: the applicator is generic
over a linear ordered field (instantiated at the rationals where proofs
evaluate, at the reals where it is wired into the controller), the fluid and
physics parts use the reals because the source computes square roots and
exponentials.  GPU textures are modelled as fields, that is functions from
UV coordinates to texel values, with texture2D sampling read as function
application; ping-pong double buffers are modelled explicitly as read/write
pairs with swaps.
-/
import Mathlib

namespace NailSalon

/-! ## BristlePaintApplicator (fallback direct rasterizer)

From src/tools/PolishBrush3D/BristlePaintApplicator.js.

PAINT_CONFIG constants of the source:
strokeWidth 70, baseOpacity 0.95, edgeDarkeningAmount 15,
glossIntensity 0.3, glossWidth 0.15, minDistance 15. -/

def strokeWidth : ℚ := 70

def baseOpacity : ℚ := 95 / 100

def edgeDarkeningAmount : ℤ := 15

def minDistance : ℚ := 15

/-- A bristle contact as consumed by the applicator: it reads only the uv
and pressure fields of the duck-typed contact objects. -/
structure PaintContact (K : Type) where
  uv : K × K
  pressure : K
deriving DecidableEq

/-- An rgb color as parseColor returns it (integer channels 0..255). -/
structure RGB where
  r : ℤ
  g : ℤ
  b : ℤ
deriving DecidableEq

/-- One ctx.stroke() call issued by drawSegment.  The three layers of the
source are the darker edge underlay, the main stroke and the gloss
highlight; the gloss layer is drawn offset from the recorded segment by a
quarter stroke width along the unit perpendicular (the normalization by the
segment length is applied at render time and carries no state). -/
inductive DrawOp (K : Type) where
  | edge (p q : K × K) (color : RGB) (width opacity : K)
  | main (p q : K × K) (color : RGB) (width opacity : K)
  | gloss (p q : K × K) (width opacity : K)
deriving DecidableEq

variable {K : Type} [LinearOrderedField K] [FloorRing K]

/-- The applicator state: the last painted position of the current stroke
and the coarse 64x64 coverage grid (the source keys cells by the string
cellX_cellY; we key by the integer pair). -/
structure Applicator (K : Type) where
  dim : K
  lastPaintedPos : Option (K × K)
  paintedCells : Finset (ℤ × ℤ)
deriving DecidableEq

/-- Constructor state: new BristlePaintApplicator(canvasDim). -/
def Applicator.init (canvasDim : K) : Applicator K :=
  { dim := canvasDim, lastPaintedPos := none, paintedCells := ∅ }

/-- cellSize = canvasDim / 64. -/
def Applicator.cellSize (a : Applicator K) : K := a.dim / 64

/-- resetStroke(): clears only the last painted position. -/
def Applicator.resetStroke (a : Applicator K) : Applicator K :=
  { a with lastPaintedPos := none }

/-- getCoverage(): paintedCells.size / (64 * 64). -/
def Applicator.getCoverage (a : Applicator K) : ℚ :=
  (a.paintedCells.card : ℚ) / (64 * 64)

/-- The weight of one contact: contact.pressure || 0.5 (a zero pressure is
falsy in JavaScript and falls back to the 0.5 default). -/
def contactWeight (c : PaintContact K) : K :=
  if c.pressure = 0 then 1 / 2 else c.pressure

/-- getPositionFromContacts: pressure-weighted centroid of the contact uvs
scaled into canvas pixels. -/
def Applicator.getPositionFromContacts (a : Applicator K)
    (contacts : List (PaintContact K)) : K × K :=
  let totalX := (contacts.map (fun c => c.uv.1 * a.dim * contactWeight c)).sum
  let totalY := (contacts.map (fun c => c.uv.2 * a.dim * contactWeight c)).sum
  let totalWeight := (contacts.map contactWeight).sum
  let totalWeight := if totalWeight = 0 then 1 else totalWeight
  (totalX / totalWeight, totalY / totalWeight)

/-- markPaintedArea(cx, cy, radius): inserts every grid cell of the
(2 radiusCells + 1) square around (cx, cy) that lands inside the 64x64
grid, where radiusCells = ceil(radius / cellSize) + 1. -/
def Applicator.markPaintedArea (a : Applicator K) (cx cy radius : K) :
    Applicator K :=
  let radiusCells : ℤ := ⌈radius / a.cellSize⌉ + 1
  let touched : Finset (ℤ × ℤ) :=
    (Finset.Icc (-radiusCells) radiusCells ×ˢ
        Finset.Icc (-radiusCells) radiusCells).image fun d =>
      (⌊(cx + (d.1 : K) * a.cellSize) / a.cellSize⌋,
       ⌊(cy + (d.2 : K) * a.cellSize) / a.cellSize⌋)
  let touched := touched.filter fun c =>
    0 ≤ c.1 ∧ c.1 < 64 ∧ 0 ≤ c.2 ∧ c.2 < 64
  { a with paintedCells := a.paintedCells ∪ touched }

/-- drawSegment(ctx, from, to, color, opacity): issues the three layered
strokes and marks the painted area around both endpoints with radius
width / 2.  Returns the updated state and the issued draw calls. -/
def Applicator.drawSegment (a : Applicator K) (p q : K × K) (color : RGB)
    (opacity : K) : Applicator K × List (DrawOp K) :=
  let finalOpacity := (baseOpacity : K) * opacity
  let dark : RGB :=
    { r := max 0 (color.r - edgeDarkeningAmount),
      g := max 0 (color.g - edgeDarkeningAmount),
      b := max 0 (color.b - edgeDarkeningAmount) }
  let w : K := (strokeWidth : K)
  let ops : List (DrawOp K) :=
    [DrawOp.edge p q dark (w + 4) (finalOpacity * (1 / 2)),
     DrawOp.main p q color w finalOpacity,
     DrawOp.gloss p q (w * (15 / 100)) (finalOpacity * (3 / 10))]
  let a := a.markPaintedArea p.1 p.2 (w / 2)
  let a := a.markPaintedArea q.1 q.2 (w / 2)
  (a, ops)

/-- paint(ctx, contacts, color, opacity).  The source compares
Math.sqrt(dx * dx + dy * dy) < minDistance; since both sides are
non-negative this is the comparison of the squares, which is how the guard
is written here (theorem sqrt_guard_iff below ties the two forms
together).  Returns the new state, the draw calls issued and the painted
indicator (1 painted, 0 skipped). -/
def Applicator.paint (a : Applicator K) (hasCtx : Bool)
    (contacts : List (PaintContact K)) (color : RGB) (opacity : K) :
    Applicator K × List (DrawOp K) × ℕ :=
  if ¬hasCtx ∨ contacts = [] then (a, [], 0)
  else
    let pos := a.getPositionFromContacts contacts
    match a.lastPaintedPos with
    | none => ({ a with lastPaintedPos := some pos }, [], 0)
    | some lp =>
      let dx := pos.1 - lp.1
      let dy := pos.2 - lp.2
      if dx * dx + dy * dy < (minDistance : K) * (minDistance : K) then
        (a, [], 0)
      else
        let (a, ops) := a.drawSegment lp pos color opacity
        ({ a with lastPaintedPos := some pos }, ops, 1)

/-! ## FluidSimulator (stable fluids GPU solver)

From src/tools/PolishBrush3D/FluidSimulator.js.  Render targets are RGBA
float textures; a texture is modelled as a function from UV coordinates to
a four component texel, texture2D as function application.  The config of
the constructor: velocityDissipation 0.85, paintDissipation 1.0,
pressureIterations 10, splatRadius 0.006, splatStrength 1.0; the grid size
is 512 so texelSize is (1/512, 1/512). -/

/-- A vec4 texel. -/
structure Vec4 where
  x : ℝ
  y : ℝ
  z : ℝ
  w : ℝ

/-- A render target: UV coordinates to texels. -/
def Tex : Type := ℝ × ℝ → Vec4

/-- Componentwise scaling, as GLSL multiplies a scalar into a vec4. -/
def smul4 (t : ℝ) (v : Vec4) : Vec4 :=
  ⟨t * v.x, t * v.y, t * v.z, t * v.w⟩

/-- GLSL mix(x, y, a) = x * (1 - a) + y * a. -/
def glmix (x y a : ℝ) : ℝ := x * (1 - a) + y * a

/-- A cleared render target (renderer.clear writes zeroes). -/
def zeroTex : Tex := fun _ => ⟨0, 0, 0, 0⟩

/-- A double-buffered render target pair. -/
structure DoubleFBO where
  read : Tex
  write : Tex

noncomputable def fluidSize : ℝ := 512

noncomputable def texelSize : ℝ × ℝ := (1 / fluidSize, 1 / fluidSize)

noncomputable def velocityDissipation : ℝ := 85 / 100

noncomputable def paintDissipation : ℝ := 1

def pressureIterations : ℕ := 10

noncomputable def splatRadius : ℝ := 6 / 1000

noncomputable def splatStrength : ℝ := 1

/-- The advection shader: pos = vUv - vel * uDt * 0.5;
gl_FragColor = uDissipation * texture2D(uSource, pos). -/
noncomputable def advect (uVelocity uSource : Tex) (uDt uDissipation : ℝ) :
    Tex := fun uv =>
  let vel := uVelocity uv
  let pos := (uv.1 - vel.x * uDt * (1 / 2), uv.2 - vel.y * uDt * (1 / 2))
  smul4 uDissipation (uSource pos)

/-- The paint splat fragment shader built inside splat():
splat = uStrength * exp(-d * d / uRadius);
blended = mix(base.rgb, uColor, min(1.0, splat));
newAlpha = max(base.a, min(1.0, splat)). -/
noncomputable def paintSplatShader (uSource : Tex) (uPoint : ℝ × ℝ)
    (uColor : ℝ × ℝ × ℝ) (uRadius uStrength : ℝ) : Tex := fun uv =>
  let base := uSource uv
  let d2 := (uv.1 - uPoint.1) ^ 2 + (uv.2 - uPoint.2) ^ 2
  let splat := uStrength * Real.exp (-d2 / uRadius)
  ⟨glmix base.x uColor.1 (min 1 splat),
   glmix base.y uColor.2.1 (min 1 splat),
   glmix base.z uColor.2.2 (min 1 splat),
   max base.w (min 1 splat)⟩

/-- The velocity splat shader: vel = splat * uVelocity;
gl_FragColor = vec4(base.xy + vel, base.zw) with
splat = uStrength * exp(-d * d / uRadius). -/
noncomputable def velocitySplatShader (uSource : Tex) (uPoint : ℝ × ℝ)
    (uVelocity : ℝ × ℝ) (uRadius uStrength : ℝ) : Tex := fun uv =>
  let base := uSource uv
  let d2 := (uv.1 - uPoint.1) ^ 2 + (uv.2 - uPoint.2) ^ 2
  let splat := uStrength * Real.exp (-d2 / uRadius)
  ⟨base.x + splat * uVelocity.1, base.y + splat * uVelocity.2, base.z, base.w⟩

/-- The divergence shader: div = 0.5 * (R - L + T - B) of the velocity
components, written as vec4(div, 0, 0, 1). -/
noncomputable def divergenceShader (uVelocity : Tex) : Tex := fun uv =>
  let l := (uVelocity (uv.1 - texelSize.1, uv.2)).x
  let r := (uVelocity (uv.1 + texelSize.1, uv.2)).x
  let t := (uVelocity (uv.1, uv.2 + texelSize.2)).y
  let b := (uVelocity (uv.1, uv.2 - texelSize.2)).y
  ⟨(1 / 2) * (r - l + t - b), 0, 0, 1⟩

/-- One Jacobi pressure iteration:
pressure = (L + R + T + B - div) * 0.25, written as vec4(p, 0, 0, 1). -/
noncomputable def pressureShader (uPressure uDivergence : Tex) : Tex :=
  fun uv =>
  let l := (uPressure (uv.1 - texelSize.1, uv.2)).x
  let r := (uPressure (uv.1 + texelSize.1, uv.2)).x
  let t := (uPressure (uv.1, uv.2 + texelSize.2)).x
  let b := (uPressure (uv.1, uv.2 - texelSize.2)).x
  let div := (uDivergence uv).x
  ⟨(l + r + t + b - div) * (1 / 4), 0, 0, 1⟩

/-- The gradient subtraction shader:
vel -= 0.5 * vec2(R - L, T - B), written as vec4(vel, 0, 1). -/
noncomputable def gradientSubtractShader (uPressure uVelocity : Tex) : Tex :=
  fun uv =>
  let l := (uPressure (uv.1 - texelSize.1, uv.2)).x
  let r := (uPressure (uv.1 + texelSize.1, uv.2)).x
  let t := (uPressure (uv.1, uv.2 + texelSize.2)).x
  let b := (uPressure (uv.1, uv.2 - texelSize.2)).x
  let vel := uVelocity uv
  ⟨vel.x - (1 / 2) * (r - l), vel.y - (1 / 2) * (t - b), 0, 1⟩

/-- The simulator state: double-buffered velocity, paint and pressure, a
single divergence target, and the lastUV tracker of the constructor. -/
structure FluidState where
  velocity : DoubleFBO
  paint : DoubleFBO
  pressure : DoubleFBO
  divergence : Tex
  lastUV : Option (ℝ × ℝ)

/-- clear(): every velocity, paint and pressure buffer is cleared and
lastUV is reset (the divergence target is recomputed each step and is not
cleared by the source either; we reset it with the rest of the state it is
derived from only where the constructor does). -/
def FluidState.clear (s : FluidState) : FluidState :=
  { s with
    velocity := ⟨zeroTex, zeroTex⟩
    paint := ⟨zeroTex, zeroTex⟩
    pressure := ⟨zeroTex, zeroTex⟩
    lastUV := none }

/-- The state the constructor builds: fresh targets, then clear(). -/
def FluidState.initial : FluidState :=
  { velocity := ⟨zeroTex, zeroTex⟩
    paint := ⟨zeroTex, zeroTex⟩
    pressure := ⟨zeroTex, zeroTex⟩
    divergence := zeroTex
    lastUV := none }

/-- splat(u, v, velocityX, velocityY, color): one velocity splat pass into
velocity.write followed by a swap, then one paint splat pass into
paint.write followed by a swap. -/
noncomputable def FluidState.splat (s : FluidState) (u v velX velY : ℝ)
    (color : ℝ × ℝ × ℝ) : FluidState :=
  let velWrite :=
    velocitySplatShader s.velocity.read (u, v) (velX, velY) splatRadius
      splatStrength
  let paintWrite :=
    paintSplatShader s.paint.read (u, v) color splatRadius splatStrength
  { s with
    velocity := ⟨velWrite, s.velocity.read⟩
    paint := ⟨paintWrite, s.paint.read⟩ }

/-- One pass of the pressure solve loop: render the pressure shader from
the read buffer into the write buffer, then swap. -/
noncomputable def jacobiPass (uDivergence : Tex) (p : DoubleFBO) :
    DoubleFBO :=
  ⟨pressureShader p.read uDivergence, p.read⟩

/-- step(dt): clamp dt to 0.033; advect velocity against itself with
velocityDissipation and swap; advect paint against the swapped (updated)
velocity with paintDissipation and swap; compute divergence; clear the
pressure read buffer; run pressureIterations Jacobi passes; subtract the
pressure gradient from the updated velocity and swap. -/
noncomputable def FluidState.step (s : FluidState) (dt : ℝ) : FluidState :=
  let dtc := min dt (33 / 1000)
  let vel1 := advect s.velocity.read s.velocity.read dtc velocityDissipation
  let paint1 := advect vel1 s.paint.read dtc paintDissipation
  let div := divergenceShader vel1
  let pressure0 : DoubleFBO := ⟨zeroTex, s.pressure.write⟩
  let pressureN := (jacobiPass div)^[pressureIterations] pressure0
  let vel2 := gradientSubtractShader pressureN.read vel1
  { velocity := ⟨vel2, vel1⟩
    paint := ⟨paint1, s.paint.read⟩
    pressure := pressureN
    divergence := div
    lastUV := s.lastUV }

/-! ## BristleSystem (multi-segment Verlet bristle physics)

From src/tools/PolishBrush3D/BristleSystem.js.  A bristle owns four joints
(joint 0 the fixed base, joints 1 to 3 movable); the per-bristle loops of
the source run over fixed bounds (jointsPerBristle = 4), so the passes are
written out joint by joint.  Bristles are mutually independent in every
pass, so the state is one bristle together with its per-bristle parameters
(stiffness, damping, friction, rest direction) as initializePhysics derives
them from the position in the head.  The brush group transform is the
identity here, so world and local coordinates coincide and the collision
raycast result is an oracle value in local coordinates. -/

/-- A 3d vector; addition, subtraction and real scaling are the
componentwise operations of the product. -/
abbrev Vec3 : Type := ℝ × ℝ × ℝ

def dot3 (a b : Vec3) : ℝ := a.1 * b.1 + a.2.1 * b.2.1 + a.2.2 * b.2.2

noncomputable def norm3 (v : Vec3) : ℝ := Real.sqrt (dot3 v v)

noncomputable def dist3 (a b : Vec3) : ℝ := norm3 (a - b)

/-- PHYSICS_CONFIG constants of the source. -/
noncomputable def bristleLength : ℝ := 125 / 10000

noncomputable def gravity : ℝ := -(2 / 100)

def constraintIterations : ℕ := 4

noncomputable def collisionPushback : ℝ := 8 / 10000

def physicsTimestep : ℚ := 1 / 120

/-- The cap applied to the accumulated delta time each updatePhysics call
(Math.min(deltaTime, 0.1)). -/
def accumulatorCap : ℚ := 1 / 10

/-- segmentLength = bristleLength / (jointsPerBristle - 1). -/
noncomputable def segmentLength : ℝ := bristleLength / 3

/-- The length below which satisfyDistanceConstraints skips a segment
(currentLen > 0.00001 guards the correction). -/
noncomputable def degenerateLen : ℝ := 1 / 100000

/-- BRUSH_CONFIG head dimensions used by applySplay. -/
noncomputable def headWidth : ℝ := 75 / 10000

noncomputable def headDepth : ℝ := 2 / 1000

/-- Per-bristle parameters, as initializePhysics derives them from the
bristle position in the head. -/
structure BristleParams where
  stiffness : ℝ
  damping : ℝ
  friction : ℝ
  restDir : Vec3

/-- One bristle: current and previous positions of its four joints. -/
structure Bristle where
  pos0 : Vec3
  pos1 : Vec3
  pos2 : Vec3
  pos3 : Vec3
  prev0 : Vec3
  prev1 : Vec3
  prev2 : Vec3
  prev3 : Vec3

/-- Verlet integration of one movable joint: velocity is the damped
position difference plus the gravity term on z, the previous position
becomes the current one and the position advances by the velocity. -/
noncomputable def verletJoint (damping gdt2 : ℝ) (curr prev : Vec3) : Vec3 :=
  let gvec : Vec3 := ((0 : ℝ), (0 : ℝ), gdt2)
  curr + (damping • (curr - prev) + gvec)

/-- The Verlet integration pass of stepPhysics over joints 1 to 3
(joint 0 is not integrated). -/
noncomputable def verletPass (p : BristleParams) (dt : ℝ) (b : Bristle) :
    Bristle :=
  let g := gravity * dt * dt
  { b with
    pos1 := verletJoint p.damping g b.pos1 b.prev1
    pos2 := verletJoint p.damping g b.pos2 b.prev2
    pos3 := verletJoint p.damping g b.pos3 b.prev3
    prev1 := b.pos1
    prev2 := b.pos2
    prev3 := b.pos3 }

/-- The angular stiffness blend of one joint toward the rest position
parent + restDir * segmentLength. -/
noncomputable def stiffnessJoint (stiffness : ℝ) (restDir parent curr : Vec3) :
    Vec3 :=
  curr + stiffness • ((parent + segmentLength • restDir) - curr)

/-- The angular stiffness pass of stepPhysics: joints 1 to 3 in order, each
reading the already blended position of its parent. -/
noncomputable def stiffnessPass (p : BristleParams) (b : Bristle) : Bristle :=
  let q1 := stiffnessJoint p.stiffness p.restDir b.pos0 b.pos1
  let q2 := stiffnessJoint p.stiffness p.restDir q1 b.pos2
  let q3 := stiffnessJoint p.stiffness p.restDir q2 b.pos3
  { b with pos1 := q1, pos2 := q2, pos3 := q3 }

/-- The distance constraint of segment 0 (base to joint 1): the base is
fixed, joint 1 takes the whole correction; a segment at or below the
degenerate length is skipped. -/
noncomputable def constraintSeg0 (b : Bristle) : Bristle :=
  let d := b.pos1 - b.pos0
  let len := norm3 d
  if degenerateLen < len then
    { b with pos1 := b.pos1 + ((segmentLength - len) / len) • d }
  else b

/-- The distance constraint of segment 1 (joints 1 and 2, both movable):
the correction is split in half between the pair. -/
noncomputable def constraintSeg1 (b : Bristle) : Bristle :=
  let d := b.pos2 - b.pos1
  let len := norm3 d
  if degenerateLen < len then
    let halfCorr := (segmentLength - len) / len * (1 / 2)
    { b with pos1 := b.pos1 - halfCorr • d, pos2 := b.pos2 + halfCorr • d }
  else b

/-- The distance constraint of segment 2 (joints 2 and 3, both movable). -/
noncomputable def constraintSeg2 (b : Bristle) : Bristle :=
  let d := b.pos3 - b.pos2
  let len := norm3 d
  if degenerateLen < len then
    let halfCorr := (segmentLength - len) / len * (1 / 2)
    { b with pos2 := b.pos2 - halfCorr • d, pos3 := b.pos3 + halfCorr • d }
  else b

/-- satisfyDistanceConstraints: the three segments in order. -/
noncomputable def satisfyDistanceConstraints (b : Bristle) : Bristle :=
  constraintSeg2 (constraintSeg1 (constraintSeg0 b))

/-- stepPhysics(dt): Verlet integration, angular stiffness, then
constraintIterations passes of the distance constraints. -/
noncomputable def stepPhysics (p : BristleParams) (dt : ℝ) (b : Bristle) :
    Bristle :=
  satisfyDistanceConstraints^[constraintIterations]
    (stiffnessPass p (verletPass p dt b))

/-- updatePhysics while loop: run the fixed step while the accumulator
holds at least one timestep.  Returns the final state, the remaining
accumulator and the number of substeps executed. -/
def updatePhysicsAux {S : Type} (stepFn : S → S) (s : S) (acc : ℚ) :
    S × ℚ × ℕ :=
  if h : physicsTimestep ≤ acc then
    let r := updatePhysicsAux stepFn (stepFn s) (acc - physicsTimestep)
    (r.1, r.2.1, r.2.2 + 1)
  else (s, acc, 0)
termination_by (⌊acc / physicsTimestep⌋).toNat
decreasing_by
  have hts : (0 : ℚ) < physicsTimestep := by norm_num [physicsTimestep]
  have h1 : (1 : ℚ) ≤ acc / physicsTimestep := (one_le_div hts).mpr h
  have hfl : ⌊(acc - physicsTimestep) / physicsTimestep⌋ =
      ⌊acc / physicsTimestep⌋ - 1 := by
    rw [sub_div, div_self (ne_of_gt hts), Int.floor_sub_one]
  have h2 : 1 ≤ ⌊acc / physicsTimestep⌋ := Int.le_floor.mpr (by
    exact_mod_cast h1)
  simp only [hfl]
  omega

/-- updatePhysics(deltaTime): cap the incoming delta time with
accumulatorCap, add it to the accumulator, then catch up with fixed
substeps. -/
def updatePhysics {S : Type} (stepFn : S → S) (s : S) (acc deltaTime : ℚ) :
    S × ℚ × ℕ :=
  updatePhysicsAux stepFn s (acc + min deltaTime accumulatorCap)

/-- applySplay(pressure): shifts the movable joints outward in x and y in
proportion to the normalized base position, quadratically more toward the
tip, and compresses them toward the surface in z. -/
noncomputable def applySplay (pressure : ℝ) (b : Bristle) : Bristle :=
  let normalizedX := b.pos0.1 / (headWidth / 2)
  let normalizedY := b.pos0.2.1 / (headDepth / 2)
  let shift : ℝ → Vec3 → Vec3 := fun t v =>
    let splayScale := t * t
    (v.1 + normalizedX * pressure * (8 / 10000) * splayScale,
     v.2.1 + normalizedY * pressure * (4 / 10000) * splayScale,
     v.2.2 - pressure * (3 / 10000) * splayScale)
  { b with
    pos1 := shift (1 / 3) b.pos1
    pos2 := shift (2 / 3) b.pos2
    pos3 := shift 1 b.pos3 }

/-- The raycast result of handleCollision for one bristle, in local
coordinates (the group transform is the identity here): the hit point and
face normal, the hit distance from the base along the bristle, and the uv
(the mesh uv when present, else the bounding box estimate of
estimateUVFromHit, else none).  A ray that hits nothing within
raycaster.far = bristleLength * 1.3 is the none case. -/
structure CollisionHit where
  point : Vec3
  normal : Vec3
  distance : ℝ
  uv : Option (ℝ × ℝ)

/-- A contact point as handleCollision records it. -/
structure Contact where
  position : Vec3
  uv : ℝ × ℝ
  normal : Vec3
  pressure : ℝ
  bristleIndex : ℕ

/-- handleCollision for one bristle: nothing happens without contact or
without a hit; a hit below bristleLength * 1.15 clamps the tip joint to
the pushed-back hit point plus the friction-reduced tangential velocity,
clamps joint 2 inward when the penetration passes a segment length, and
records a contact whose pressure is the normalized penetration depth
floored at 0.15. -/
noncomputable def handleCollisionBristle (p : BristleParams) (idx : ℕ)
    (isContacting : Bool) (hit : Option CollisionHit) (b : Bristle) :
    Bristle × List Contact :=
  if ¬isContacting then (b, [])
  else
    match hit with
    | none => (b, [])
    | some h =>
      if h.distance < bristleLength * (115 / 100) then
        let penetrationDepth := bristleLength - h.distance
        let hitPoint := h.point + collisionPushback • h.normal
        let vel := b.pos3 - b.prev3
        let normalVelMag := dot3 vel h.normal
        let tangentVel := vel - normalVelMag • h.normal
        let frictionFactor := 1 - p.friction
        let b1 := { b with pos3 := hitPoint + frictionFactor • tangentVel }
        let b2 :=
          if segmentLength < penetrationDepth then
            let j2Depth := -(dot3 (b1.pos2 - h.point) h.normal)
            if 0 < j2Depth then
              { b1 with pos2 :=
                  b1.pos2 + (j2Depth + collisionPushback * (1 / 2)) • h.normal }
            else b1
          else b1
        let pressure := min 1 (penetrationDepth / (bristleLength * (1 / 2)))
        match h.uv with
        | some uv => (b2, [⟨h.point, uv, h.normal, max (15 / 100) pressure, idx⟩])
        | none => (b2, [])
      else (b, [])

/-- The full BristleSystem.update cycle for one bristle: applySplay when
pressure is positive, the fixed-timestep physics, then collision handling.
updateInstanceMatrices only rebuilds render transforms and writes no joint
state, so it does not appear in the physics state.  Returns the new
bristle, the new accumulator and the contact points. -/
noncomputable def bristleUpdate (p : BristleParams) (idx : ℕ) (pressure : ℝ)
    (isContacting : Bool) (hit : Option CollisionHit) (b : Bristle)
    (acc deltaTime : ℚ) : Bristle × ℚ × List Contact :=
  let b1 := if 0 < pressure then applySplay pressure b else b
  let r := updatePhysics (stepPhysics p ((physicsTimestep : ℚ) : ℝ)) b1 acc
    deltaTime
  let c := handleCollisionBristle p idx isContacting hit r.1
  (c.1, r.2.1, c.2)

/-! ## BrushInputHandler

From src/tools/PolishBrush3D/BrushInputHandler.js.  BRUSH_CONFIG:
defaultDistance 0.6, hoverHeight 0.02, pressHeight 0.005, tipOffset
(0.005, -0.005, 0).  The camera ray and the camera-rotated tip offset are
inputs (setFromCamera and applyQuaternion only produce them from the
pointer and camera state); the raycast against the nail mesh is the hit
oracle. -/

noncomputable def defaultDistance : ℝ := 6 / 10

noncomputable def hoverHeight : ℝ := 2 / 100

noncomputable def pressHeight : ℝ := 5 / 1000

noncomputable def normalize3 (v : Vec3) : Vec3 := (1 / norm3 v) • v

/-- The transform getBrushTransform returns. -/
structure BrushPose where
  position : Vec3
  normal : Vec3
  surfacePoint : Vec3
  uv : Option (ℝ × ℝ)
  pressure : ℝ
  isValid : Bool

/-- A raycast hit against the nail mesh: the hit point and its uv. -/
structure RayHit where
  point : Vec3
  uv : Option (ℝ × ℝ)

/-- getBrushTransform(nailMesh): on a hit, a valid pose at the hit point
offset toward the camera by a height that shrinks with pressure while the
pointer is down; on a miss, an invalid pose at defaultDistance along the
view ray, with zero pressure and no uv. -/
noncomputable def getBrushTransform (camPos rayDir tipOffsetWorld : Vec3)
    (isPointerDown : Bool) (simulatedPressure : ℝ) (hit : Option RayHit) :
    BrushPose :=
  match hit with
  | some h =>
    let height := if isPointerDown then
        pressHeight + (hoverHeight - pressHeight) * (1 - simulatedPressure)
      else hoverHeight
    let toCamera := normalize3 (camPos - h.point)
    let position := h.point + height • toCamera + tipOffsetWorld
    { position := position, normal := toCamera, surfacePoint := h.point,
      uv := h.uv,
      pressure := if isPointerDown then simulatedPressure else 0,
      isValid := true }
  | none =>
    let screenPosition := camPos + defaultDistance • rayDir + tipOffsetWorld
    { position := screenPosition, normal := ((0 : ℝ), (1 : ℝ), (0 : ℝ)),
      surfacePoint := screenPosition, uv := none, pressure := 0,
      isValid := false }

/-- updatePressure(deltaTime): ramp the simulated pressure toward 1 at
rate 10 while the pointer is down, decay toward 0 at rate 8 otherwise. -/
noncomputable def updatePressure (isPointerDown : Bool)
    (simulatedPressure dt : ℝ) : ℝ :=
  if isPointerDown then min 1 (simulatedPressure + dt * 10)
  else max 0 (simulatedPressure - dt * 8)

/-! ## PolishBrush3D controller

From src/tools/PolishBrush3D/PolishBrush3D.js.  The state carries the
paint-flow relevant fields: the activation and input flags, the input
handler pressure state, the fluid simulator (present once a renderer is
available), the fallback applicator, the uv tracker, a bristle with its
parameters and the physics accumulator, and the active nail canvas.
Bristles being mutually independent, one representative bristle stands for
the 128 of the system. -/

noncomputable def canvasDim : ℝ := 1024

/-- copyToCanvas: the paint texture read back and nearest-sampled into the
canvas, each channel scaled by 255 and clamped at 255. -/
noncomputable def copyToCanvas (paintTex : Tex) : ℤ × ℤ → Vec4 := fun c =>
  let sx := ⌊(c.1 : ℝ) * (fluidSize / canvasDim)⌋
  let sy := ⌊(c.2 : ℝ) * (fluidSize / canvasDim)⌋
  let p := paintTex ((sx : ℝ) / fluidSize, (sy : ℝ) / fluidSize)
  ⟨min 255 (p.x * 255), min 255 (p.y * 255), min 255 (p.z * 255),
   min 255 (p.w * 255)⟩

structure BrushState where
  isActive : Bool
  isPainting : Bool
  inputAttached : Bool
  isPointerDown : Bool
  simulatedPressure : ℝ
  brushVisible : Bool
  cursorHidden : Bool
  hasRenderer : Bool
  useFluidSim : Bool
  fluidSim : Option FluidState
  applicator : Applicator ℝ
  lastUV : Option (ℝ × ℝ)
  bristle : Bristle
  bristleParams : BristleParams
  bristleAcc : ℚ
  bristlePressure : ℝ
  isContacting : Bool
  color : ℝ × ℝ × ℝ
  colorRGB : RGB
  nailPresent : Bool
  canvas : ℤ × ℤ → Vec4

/-- activate(): no-op when already active; otherwise create the fluid
simulator when a renderer is present and none exists yet, create and
attach a fresh input handler (pointer up, zero pressure), hide the system
cursor and show the brush.  The fluid and applicator state are kept. -/
def activate (s : BrushState) : BrushState :=
  if s.isActive then s
  else
    { s with
      isActive := true
      fluidSim :=
        if s.hasRenderer ∧ s.fluidSim.isNone then some FluidState.initial
        else s.fluidSim
      inputAttached := true
      isPointerDown := false
      simulatedPressure := 0
      cursorHidden := true
      brushVisible := true }

/-- deactivate(): no-op when not active; otherwise stop painting, detach
the input handler, restore the cursor and hide the brush.  The fluid
field, the applicator and the uv tracker are left untouched. -/
def deactivate (s : BrushState) : BrushState :=
  if ¬s.isActive then s
  else
    { s with
      isActive := false
      isPainting := false
      inputAttached := false
      cursorHidden := false
      brushVisible := false }

/-- clearNail(): nothing without an active nail canvas; otherwise clear
the canvas pixels, clear the fluid simulation when present, reset the
applicator stroke and the uv tracker, and fire onCoverageChange with 0
(the second component is the payload of that callback). -/
def clearNail (s : BrushState) : BrushState × Option ℚ :=
  if ¬s.nailPresent then (s, none)
  else
    ({ s with
        canvas := fun _ => ⟨0, 0, 0, 0⟩
        fluidSim := s.fluidSim.map FluidState.clear
        applicator := s.applicator.resetStroke
        lastUV := none },
     some 0)

/-- update(time): the per-frame orchestration.  The delta time is the
frame time capped at 0.05 s; inputs of the frame are the camera ray, the
rotated tip offset, the pointer raycast result and the bristle collision
raycast result.  Returns the new state and the contact list of the
frame. -/
noncomputable def brushUpdate (s : BrushState) (deltaTimeRaw : ℚ)
    (camPos rayDir tipOff : Vec3) (rayHit : Option RayHit)
    (colHit : Option CollisionHit) : BrushState × List Contact :=
  if ¬s.isActive then (s, [])
  else
    let dt : ℚ := min deltaTimeRaw (1 / 20)
    let dtR : ℝ := (dt : ℝ)
    let sp := updatePressure s.isPointerDown s.simulatedPressure dtR
    let s := { s with simulatedPressure := sp }
    let transform :=
      if s.inputAttached then
        some (getBrushTransform camPos rayDir tipOff s.isPointerDown sp rayHit)
      else none
    let s :=
      match transform with
      | none => s
      | some t =>
        if t.isValid then
          let s := { s with
            bristlePressure := t.pressure
            isContacting := decide (0 < t.pressure) }
          let wasPainting := s.isPainting
          let nowPainting := s.isPointerDown
          let s := { s with isPainting := nowPainting }
          let s :=
            if (nowPainting ∧ ¬wasPainting) ∨ (¬nowPainting ∧ wasPainting)
            then { s with lastUV := none,
                          applicator := s.applicator.resetStroke }
            else s
          if s.isPainting then
            match s.fluidSim, s.useFluidSim, t.uv with
            | some fs, true, some uv =>
              let vel : ℝ × ℝ :=
                match s.lastUV with
                | some l => ((uv.1 - l.1) * 10, (uv.2 - l.2) * 10)
                | none => (0, 0)
              { s with
                fluidSim := some (fs.splat uv.1 uv.2 vel.1 vel.2 s.color)
                lastUV := some uv }
            | _, _, _ => s
          else s
        else
          let s := { s with bristlePressure := 0, isContacting := false }
          if s.isPainting then
            { s with lastUV := none,
                     applicator := s.applicator.resetStroke,
                     isPainting := false }
          else s
    let bu := bristleUpdate s.bristleParams 0 s.bristlePressure
      s.isContacting colHit s.bristle s.bristleAcc dt
    let s := { s with bristle := bu.1, bristleAcc := bu.2.1 }
    let contacts := bu.2.2
    let s :=
      match s.fluidSim, s.useFluidSim with
      | some fs, true =>
        let fs := fs.step dtR
        let s := { s with fluidSim := some fs }
        if s.nailPresent then { s with canvas := copyToCanvas fs.paint.read }
        else s
      | _, _ =>
        if s.isPainting ∧ s.nailPresent then
          match contacts with
          | [] => s
          | _ :: _ =>
            let pr := s.applicator.paint true
              (contacts.map fun c => ⟨c.uv, c.pressure⟩) s.colorRGB 1
            { s with applicator := pr.1 }
        else s
    (s, contacts)

/-- The Gaussian weight the paint splat shader computes at uv for a splat
centered at uPoint, with the configured radius and strength
(uStrength * exp(-d * d / uRadius)). -/
noncomputable def splatWeight (uPoint uv : ℝ × ℝ) : ℝ :=
  splatStrength *
    Real.exp (-((uv.1 - uPoint.1) ^ 2 + (uv.2 - uPoint.2) ^ 2) / splatRadius)

/-- One application of the configured paint splat at a fixed point and
color, as splat() renders it into the paint buffer. -/
noncomputable def splatPaintOnce (pt : ℝ × ℝ) (c : ℝ × ℝ × ℝ) (f : Tex) :
    Tex :=
  paintSplatShader f pt c splatRadius splatStrength

/-- The blend the paint splat shader performs in one cell, with m the
clamped splat weight min 1 (splatWeight pt uv); derived form used by the
iteration proofs. -/
noncomputable def cellBlend (c : ℝ × ℝ × ℝ) (m : ℝ) (v : Vec4) : Vec4 :=
  ⟨glmix v.x c.1 m, glmix v.y c.2.1 m, glmix v.z c.2.2 m, max v.w m⟩

/-- A texture whose velocity components vanish everywhere (the state of
the velocity buffer while no splat has ever been applied). -/
def velXYZeroTex (t : Tex) : Prop := ∀ uv, (t uv).x = 0 ∧ (t uv).y = 0

/-! ## Concrete states used to evaluate the theorems -/

noncomputable def vzero : Vec3 := ((0 : ℝ), (0 : ℝ), (0 : ℝ))

/-- A joint position from which the stiffness blend of a center bristle
(stiffness 11/50) lands exactly on the base point: the collapsing
configuration of the C4 counterexample. -/
noncomputable def vC4 : Vec3 := ((0 : ℝ), (0 : ℝ), -(11 / 9360))

/-- The previous position that makes the Verlet velocity cancel the
gravity term exactly (damping 23/25, gravity times the squared fixed
timestep -1/720000). -/
noncomputable def pC4 : Vec3 := ((0 : ℝ), (0 : ℝ), -(11 / 9360) - 1 / 662400)

/-- A bristle state whose physics step ends fully collapsed: all three
movable joints at the same point slightly behind the base, with previous
positions chosen so integration moves nothing. -/
noncomputable def bC4 : Bristle :=
  ⟨vzero, vC4, vC4, vC4, vzero, pC4, pC4, pC4⟩

/-- bC4 after Verlet integration. -/
noncomputable def bC4mid : Bristle :=
  ⟨vzero, vC4, vC4, vC4, vzero, vC4, vC4, vC4⟩

/-- bC4 after the stiffness pass: fully collapsed at the base, which the
constraint solver then skips entirely. -/
noncomputable def bC4end : Bristle :=
  ⟨vzero, vzero, vzero, vzero, vzero, vC4, vC4, vC4⟩

noncomputable def appC7 : Applicator ℝ :=
  { dim := 1024, lastPaintedPos := some (512, 512), paintedCells := ∅ }

noncomputable def contactsC7 : List (PaintContact ℝ) :=
  [{ uv := (1 / 2, 1 / 2), pressure := 1 }]

def appC10 : Applicator ℚ :=
  { dim := 1024, lastPaintedPos := some (3, 4), paintedCells := {(1, 2)} }

def contactsC10 : List (PaintContact ℚ) :=
  [{ uv := (1 / 4, 1 / 2), pressure := 0 }]

def magenta : RGB := { r := 255, g := 42, b := 109 }

noncomputable def ptC2 : ℝ × ℝ := (1 / 2, 1 / 2)

noncomputable def colC2 : ℝ × ℝ × ℝ := (1, 0, 0)

/-- Parameters of a center bristle: stiffness 0.22, damping 0.92,
friction 0.4, rest direction straight ahead. -/
noncomputable def centerParams : BristleParams :=
  { stiffness := 11 / 50, damping := 23 / 25, friction := 2 / 5,
    restDir := ((0 : ℝ), (0 : ℝ), (1 : ℝ)) }

noncomputable def bristleZero : Bristle :=
  { pos0 := vzero, pos1 := vzero, pos2 := vzero, pos3 := vzero,
    prev0 := vzero, prev1 := vzero, prev2 := vzero, prev3 := vzero }

/-- A controller state whose fallback painter has covered one coverage
cell in an earlier stroke (and has a stale last painted position), with an
active nail canvas and a live fluid simulator. -/
noncomputable def stateC1 : BrushState :=
  { isActive := true, isPainting := false, inputAttached := false,
    isPointerDown := false, simulatedPressure := 0, brushVisible := false,
    cursorHidden := false, hasRenderer := true, useFluidSim := true,
    fluidSim := some FluidState.initial,
    applicator :=
      { dim := 1024, lastPaintedPos := some (100, 100),
        paintedCells := {(0, 0)} },
    lastUV := none, bristle := bristleZero, bristleParams := centerParams,
    bristleAcc := 0, bristlePressure := 0, isContacting := false,
    color := (1, 0, 0), colorRGB := magenta, nailPresent := true,
    canvas := fun _ => ⟨0, 0, 0, 0⟩ }

noncomputable def dirC6 : Vec3 := ((0 : ℝ), (0 : ℝ), (1 : ℝ))

noncomputable def tipC6 : Vec3 := ((5 : ℝ) / 1000, -(5 / 1000), (0 : ℝ))

/-- An active controller state with an untouched fluid simulator, used to
evaluate the missed-raycast scenario. -/
noncomputable def stateC6 : BrushState :=
  { isActive := true, isPainting := false, inputAttached := true,
    isPointerDown := false, simulatedPressure := 0, brushVisible := true,
    cursorHidden := true, hasRenderer := true, useFluidSim := true,
    fluidSim := some FluidState.initial,
    applicator := Applicator.init 1024,
    lastUV := none, bristle := bristleZero, bristleParams := centerParams,
    bristleAcc := 0, bristlePressure := 0, isContacting := false,
    color := (1, 0, 0), colorRGB := magenta, nailPresent := true,
    canvas := fun _ => ⟨0, 0, 0, 0⟩ }

/-! ## Theorems -/

/-- The skip guard of paint as the source writes it
(Math.sqrt(dx * dx + dy * dy) < minDistance) agrees with the squared
comparison of the embedding. -/
theorem sqrt_guard_iff (dx dy m : ℝ) (hm : 0 < m) :
    Real.sqrt (dx ^ 2 + dy ^ 2) < m ↔ dx * dx + dy * dy < m * m := by
  rw [Real.sqrt_lt' hm, pow_two, pow_two, pow_two]

/-- C7.  A paint call whose pressure-weighted centroid lies strictly
closer than minDistance to the last painted point draws nothing and leaves
the whole applicator state, the coverage grid included, unchanged,
returning the skipped indicator 0. -/
theorem paint_skips_close_centroid (a : Applicator ℝ) (lp : ℝ × ℝ)
    (contacts : List (PaintContact ℝ)) (color : RGB) (opacity : ℝ)
    (hlast : a.lastPaintedPos = some lp) (hne : contacts ≠ [])
    (hdist : Real.sqrt (((a.getPositionFromContacts contacts).1 - lp.1) ^ 2 +
      ((a.getPositionFromContacts contacts).2 - lp.2) ^ 2) < (minDistance : ℝ)) :
    a.paint true contacts color opacity = (a, [], 0) := by
  have hmin : (0 : ℝ) < (minDistance : ℝ) := by norm_num [minDistance]
  have hsq := (sqrt_guard_iff _ _ _ hmin).mp hdist
  simp only [Applicator.paint, hlast]
  rw [if_neg (by simp [hne])]
  rw [if_pos hsq]

/-- C7 witness: a stationary centroid (distance 0) is skipped. -/
theorem paint_skips_close_centroid_check :
    appC7.lastPaintedPos = some (512, 512) ∧ contactsC7 ≠ [] ∧
    Real.sqrt (((appC7.getPositionFromContacts contactsC7).1 - 512) ^ 2 +
      ((appC7.getPositionFromContacts contactsC7).2 - 512) ^ 2) <
      (minDistance : ℝ) ∧
    appC7.paint true contactsC7 magenta 1 = (appC7, [], 0) := by
  have hpos : appC7.getPositionFromContacts contactsC7 = (512, 512) := by
    simp only [appC7, contactsC7, Applicator.getPositionFromContacts,
      contactWeight, List.map_cons, List.map_nil, List.sum_cons, List.sum_nil]
    norm_num
  have hne : contactsC7 ≠ [] := by simp [contactsC7]
  have hdist : Real.sqrt (((appC7.getPositionFromContacts contactsC7).1 - 512) ^ 2 +
      ((appC7.getPositionFromContacts contactsC7).2 - 512) ^ 2) <
      (minDistance : ℝ) := by
    rw [hpos]
    norm_num [minDistance, Real.sqrt_zero]
  exact ⟨rfl, hne, hdist,
    paint_skips_close_centroid appC7 (512, 512) contactsC7 magenta 1 rfl hne
      hdist⟩

/-- C10.  The first paint call of a stroke (right after resetStroke, when
no last painted position exists) draws nothing and leaves the coverage
grid unchanged: it only records the centroid and returns 0.  Moreover any
call that does draw (returns 1) requires an already recorded position, so
a stroke needs at least two sufficiently distant centroids before a pixel
is drawn. -/
theorem first_paint_records_only (a : Applicator ℚ)
    (contacts : List (PaintContact ℚ)) (color : RGB) (opacity : ℚ)
    (hne : contacts ≠ []) :
    a.resetStroke.paint true contacts color opacity =
      (⟨a.dim, some (a.resetStroke.getPositionFromContacts contacts),
          a.paintedCells⟩, [], 0) ∧
    (a.resetStroke.paint true contacts color opacity).1.paintedCells =
      a.paintedCells ∧
    ∀ (b : Applicator ℚ) (hasCtx : Bool),
      (b.paint hasCtx contacts color opacity).2.2 = 1 →
        b.lastPaintedPos ≠ none := by
  refine ⟨?_, ?_, ?_⟩
  · simp only [Applicator.paint, Applicator.resetStroke]
    rw [if_neg (by simp [hne])]
  · simp only [Applicator.paint, Applicator.resetStroke]
    rw [if_neg (by simp [hne])]
  · intro b hasCtx hret hnone
    revert hret
    simp only [Applicator.paint, hnone]
    split
    · simp
    · simp

/-- C10 witness at a concrete stroke start. -/
theorem first_paint_records_only_check :
    contactsC10 ≠ [] ∧
    (appC10.resetStroke.paint true contactsC10 magenta 1 =
      (⟨appC10.dim,
          some (appC10.resetStroke.getPositionFromContacts contactsC10),
          appC10.paintedCells⟩, [], 0) ∧
    (appC10.resetStroke.paint true contactsC10 magenta 1).1.paintedCells =
      appC10.paintedCells ∧
    ∀ (b : Applicator ℚ) (hasCtx : Bool),
      (b.paint hasCtx contactsC10 magenta 1).2.2 = 1 →
        b.lastPaintedPos ≠ none) :=
  ⟨by decide, first_paint_records_only appC10 contactsC10 magenta 1 (by decide)⟩

/-- C1 (the code violates the claim): clearNail() clears the canvas,
clears the fluid simulation and fires onCoverageChange(0), but on the
fallback compositor it only calls resetStroke(), which nulls the last
painted position and leaves paintedCells untouched; getCoverage()
immediately after clearNail() therefore still reports the stale coverage
(here 1/4096 for one previously covered cell) instead of 0. -/
theorem clearNail_keeps_stale_coverage :
    (clearNail stateC1).2 = some 0 ∧
    (clearNail stateC1).1.fluidSim = some FluidState.initial.clear ∧
    (clearNail stateC1).1.applicator.paintedCells =
      stateC1.applicator.paintedCells ∧
    (clearNail stateC1).1.applicator.getCoverage = 1 / 4096 ∧
    (1 : ℚ) / 4096 ≠ 0 := by
  refine ⟨rfl, rfl, rfl, ?_, by norm_num⟩
  show ((1 : ℚ)) / (64 * 64) = 1 / 4096
  norm_num

/-- C9.  deactivate() detaches input, restores the cursor and hides the
brush, but modifies no field state: the fluid simulator, the fallback
applicator, the uv tracker and the canvas are untouched, so activate()
resumes painting on the same field; clearNail() is what resets the fluid
field. -/
theorem deactivate_leaves_field_intact :
    ∀ s : BrushState,
      (deactivate s).fluidSim = s.fluidSim ∧
      (deactivate s).applicator = s.applicator ∧
      (deactivate s).lastUV = s.lastUV ∧
      (deactivate s).canvas = s.canvas ∧
      (s.isActive = true →
        (deactivate s).isActive = false ∧
        (deactivate s).inputAttached = false ∧
        (deactivate s).brushVisible = false) ∧
      (s.fluidSim.isSome = true →
        (activate (deactivate s)).fluidSim = s.fluidSim) ∧
      (s.nailPresent = true →
        (clearNail s).1.fluidSim = s.fluidSim.map FluidState.clear) := by
  intro s
  refine ⟨?_, ?_, ?_, ?_, ?_, ?_, ?_⟩
  · unfold deactivate; split <;> rfl
  · unfold deactivate; split <;> rfl
  · unfold deactivate; split <;> rfl
  · unfold deactivate; split <;> rfl
  · intro hact
    simp [deactivate, hact]
  · intro hsome
    obtain ⟨f, hf⟩ := Option.isSome_iff_exists.mp hsome
    by_cases hact : s.isActive = true <;>
      simp [activate, deactivate, hact, hf]
  · intro hnail
    simp [clearNail, hnail]

/-- C8.  step(dt) first clamps dt at 0.033, then runs exactly the pass
sequence: velocity self-advection with dissipation 0.85 (strictly below
one), paint advection against the updated (post-swap) velocity with
dissipation exactly 1, divergence, ten Jacobi pressure iterations from a
cleared pressure buffer, and pressure gradient subtraction from the
updated velocity. -/
theorem step_pass_sequence :
    ∀ (s : FluidState) (dt : ℝ),
      s.step dt = s.step (min dt (33 / 1000)) ∧
      (s.step dt).paint.read =
        advect
          (advect s.velocity.read s.velocity.read (min dt (33 / 1000))
            velocityDissipation)
          s.paint.read (min dt (33 / 1000)) paintDissipation ∧
      (s.step dt).velocity.read =
        gradientSubtractShader
          ((jacobiPass (divergenceShader
              (advect s.velocity.read s.velocity.read (min dt (33 / 1000))
                velocityDissipation)))^[pressureIterations]
            ⟨zeroTex, s.pressure.write⟩).read
          (advect s.velocity.read s.velocity.read (min dt (33 / 1000))
            velocityDissipation) ∧
      velocityDissipation < 1 ∧
      paintDissipation = 1 ∧
      pressureIterations = 10 := by
  intro s dt
  refine ⟨?_, rfl, rfl, ?_, rfl, rfl⟩
  · unfold FluidState.step
    rw [min_assoc, min_self]
  · norm_num [velocityDissipation]

theorem splatPaintOnce_apply (pt : ℝ × ℝ) (c : ℝ × ℝ × ℝ) (f : Tex)
    (uv : ℝ × ℝ) :
    splatPaintOnce pt c f uv =
      cellBlend c (min 1 (splatWeight pt uv)) (f uv) := rfl

theorem splatPaintOnce_iterate_apply (pt : ℝ × ℝ) (c : ℝ × ℝ × ℝ) (f : Tex)
    (uv : ℝ × ℝ) : ∀ n : ℕ,
    (splatPaintOnce pt c)^[n] f uv =
      (cellBlend c (min 1 (splatWeight pt uv)))^[n] (f uv) := by
  intro n
  induction n with
  | zero => rfl
  | succ n ih =>
    rw [Function.iterate_succ_apply', Function.iterate_succ_apply',
      splatPaintOnce_apply, ih]

theorem glmix_iterate (a target m : ℝ) : ∀ n : ℕ,
    (fun x => glmix x target m)^[n] a =
      target + (1 - m) ^ n * (a - target) := by
  intro n
  induction n with
  | zero => simp
  | succ n ih =>
    rw [Function.iterate_succ_apply', ih]
    unfold glmix
    ring

theorem cellBlend_iterate_x (c : ℝ × ℝ × ℝ) (m : ℝ) (v : Vec4) :
    ∀ n : ℕ, ((cellBlend c m)^[n] v).x =
      (fun x => glmix x c.1 m)^[n] v.x := by
  intro n
  induction n with
  | zero => rfl
  | succ n ih =>
    rw [Function.iterate_succ_apply', Function.iterate_succ_apply', ← ih]
    rfl

theorem cellBlend_iterate_y (c : ℝ × ℝ × ℝ) (m : ℝ) (v : Vec4) :
    ∀ n : ℕ, ((cellBlend c m)^[n] v).y =
      (fun x => glmix x c.2.1 m)^[n] v.y := by
  intro n
  induction n with
  | zero => rfl
  | succ n ih =>
    rw [Function.iterate_succ_apply', Function.iterate_succ_apply', ← ih]
    rfl

theorem cellBlend_iterate_z (c : ℝ × ℝ × ℝ) (m : ℝ) (v : Vec4) :
    ∀ n : ℕ, ((cellBlend c m)^[n] v).z =
      (fun x => glmix x c.2.2 m)^[n] v.z := by
  intro n
  induction n with
  | zero => rfl
  | succ n ih =>
    rw [Function.iterate_succ_apply', Function.iterate_succ_apply', ← ih]
    rfl

theorem glmix_iterate_tendsto (a target m : ℝ) (hm0 : 0 < m) (hm1 : m ≤ 1) :
    Filter.Tendsto (fun n : ℕ => (fun x => glmix x target m)^[n] a)
      Filter.atTop (nhds target) := by
  have hr0 : (0 : ℝ) ≤ 1 - m := by linarith
  have hr1 : 1 - m < 1 := by linarith
  have hpow : Filter.Tendsto (fun n : ℕ => (1 - m) ^ n * (a - target))
      Filter.atTop (nhds 0) := by
    simpa using
      (tendsto_pow_atTop_nhds_zero_of_lt_one hr0 hr1).mul_const (a - target)
  have := Filter.Tendsto.const_add target hpow
  simp only [add_zero] at this
  refine this.congr fun n => ?_
  rw [glmix_iterate]

/-- The splat weight is strictly positive and, with the configured
strength 1 and positive radius, at most 1. -/
theorem splatWeight_pos_le_one (pt uv : ℝ × ℝ) :
    0 < splatWeight pt uv ∧ splatWeight pt uv ≤ 1 := by
  constructor
  · exact mul_pos (by norm_num [splatStrength]) (Real.exp_pos _)
  · have harg : -((uv.1 - pt.1) ^ 2 + (uv.2 - pt.2) ^ 2) / splatRadius ≤ 0 := by
      apply div_nonpos_of_nonpos_of_nonneg
      · have : (0 : ℝ) ≤ (uv.1 - pt.1) ^ 2 + (uv.2 - pt.2) ^ 2 := by positivity
        linarith
      · norm_num [splatRadius]
    have := Real.exp_le_one_iff.mpr harg
    calc splatWeight pt uv
        = Real.exp (-((uv.1 - pt.1) ^ 2 + (uv.2 - pt.2) ^ 2) / splatRadius) := by
          unfold splatWeight splatStrength; ring
      _ ≤ 1 := this

/-- C2.  For a paint cell with alpha in the unit interval, the splat pass
sets the alpha to the maximum of the old alpha and the splat weight (not
their sum), the result never exceeds 1, and repeated splats of the same
color at the same point have monotonically non-increasing distance to
that color and converge to it in every channel. -/
theorem splat_alpha_max_and_converges (f : Tex) (pt uv : ℝ × ℝ)
    (c : ℝ × ℝ × ℝ) (h0 : 0 ≤ (f uv).w) (h1 : (f uv).w ≤ 1) :
    (∀ (s : FluidState) (velX velY : ℝ),
      (s.splat pt.1 pt.2 velX velY c).paint.read =
        splatPaintOnce pt c s.paint.read) ∧
    (splatPaintOnce pt c f uv).w = max ((f uv).w) (splatWeight pt uv) ∧
    (splatPaintOnce pt c f uv).w ≤ 1 ∧
    (∀ n : ℕ,
      |((splatPaintOnce pt c)^[n + 1] f uv).x - c.1| ≤
        |((splatPaintOnce pt c)^[n] f uv).x - c.1|) ∧
    Filter.Tendsto (fun n : ℕ => ((splatPaintOnce pt c)^[n] f uv).x)
      Filter.atTop (nhds c.1) ∧
    Filter.Tendsto (fun n : ℕ => ((splatPaintOnce pt c)^[n] f uv).y)
      Filter.atTop (nhds c.2.1) ∧
    Filter.Tendsto (fun n : ℕ => ((splatPaintOnce pt c)^[n] f uv).z)
      Filter.atTop (nhds c.2.2) := by
  obtain ⟨hw0, hw1⟩ := splatWeight_pos_le_one pt uv
  have hmin : min 1 (splatWeight pt uv) = splatWeight pt uv :=
    min_eq_right hw1
  have hm0 : 0 < min 1 (splatWeight pt uv) := by rw [hmin]; exact hw0
  have hm1 : min 1 (splatWeight pt uv) ≤ 1 := min_le_left _ _
  refine ⟨fun s velX velY => rfl, ?_, ?_, ?_, ?_, ?_, ?_⟩
  · rw [splatPaintOnce_apply]
    show max ((f uv).w) (min 1 (splatWeight pt uv)) = _
    rw [hmin]
  · rw [splatPaintOnce_apply]
    exact max_le h1 hm1
  · intro n
    rw [splatPaintOnce_iterate_apply, splatPaintOnce_iterate_apply,
      cellBlend_iterate_x, cellBlend_iterate_x, glmix_iterate, glmix_iterate]
    have hr0 : (0 : ℝ) ≤ 1 - min 1 (splatWeight pt uv) := by linarith
    have hr1 : 1 - min 1 (splatWeight pt uv) ≤ 1 := by linarith
    simp only [add_sub_cancel_left, abs_mul, abs_pow]
    have habs : |1 - min 1 (splatWeight pt uv)| = 1 - min 1 (splatWeight pt uv) :=
      abs_of_nonneg hr0
    rw [habs, pow_succ]
    have hpow : (0 : ℝ) ≤ (1 - min 1 (splatWeight pt uv)) ^ n := pow_nonneg hr0 n
    nlinarith [abs_nonneg ((f uv).x - c.1),
      mul_le_of_le_one_right hpow hr1]
  · refine (glmix_iterate_tendsto (f uv).x c.1 _ hm0 hm1).congr fun n => ?_
    rw [splatPaintOnce_iterate_apply, cellBlend_iterate_x]
  · refine (glmix_iterate_tendsto (f uv).y c.2.1 _ hm0 hm1).congr fun n => ?_
    rw [splatPaintOnce_iterate_apply, cellBlend_iterate_y]
  · refine (glmix_iterate_tendsto (f uv).z c.2.2 _ hm0 hm1).congr fun n => ?_
    rw [splatPaintOnce_iterate_apply, cellBlend_iterate_z]

/-- C2 witness: a cleared paint cell splatted at its own center. -/
theorem splat_alpha_max_and_converges_check :
    0 ≤ (zeroTex ptC2).w ∧ (zeroTex ptC2).w ≤ 1 ∧
    ((∀ (s : FluidState) (velX velY : ℝ),
        (s.splat ptC2.1 ptC2.2 velX velY colC2).paint.read =
          splatPaintOnce ptC2 colC2 s.paint.read) ∧
      (splatPaintOnce ptC2 colC2 zeroTex ptC2).w =
        max ((zeroTex ptC2).w) (splatWeight ptC2 ptC2) ∧
      (splatPaintOnce ptC2 colC2 zeroTex ptC2).w ≤ 1 ∧
      (∀ n : ℕ,
        |((splatPaintOnce ptC2 colC2)^[n + 1] zeroTex ptC2).x - colC2.1| ≤
          |((splatPaintOnce ptC2 colC2)^[n] zeroTex ptC2).x - colC2.1|) ∧
      Filter.Tendsto
        (fun n : ℕ => ((splatPaintOnce ptC2 colC2)^[n] zeroTex ptC2).x)
        Filter.atTop (nhds colC2.1) ∧
      Filter.Tendsto
        (fun n : ℕ => ((splatPaintOnce ptC2 colC2)^[n] zeroTex ptC2).y)
        Filter.atTop (nhds colC2.2.1) ∧
      Filter.Tendsto
        (fun n : ℕ => ((splatPaintOnce ptC2 colC2)^[n] zeroTex ptC2).z)
        Filter.atTop (nhds colC2.2.2)) :=
  ⟨le_refl 0, zero_le_one,
    splat_alpha_max_and_converges zeroTex ptC2 ptC2 colC2 (le_refl 0)
      zero_le_one⟩

/-- The catch-up loop runs fewer than n + 1 substeps when the accumulator
holds fewer than n + 1 timesteps. -/
theorem updatePhysicsAux_count_le {S : Type} (stepFn : S → S) :
    ∀ (n : ℕ) (s : S) (acc : ℚ),
      acc < ((n : ℚ) + 1) * physicsTimestep →
      (updatePhysicsAux stepFn s acc).2.2 ≤ n := by
  intro n
  induction n with
  | zero =>
    intro s acc h
    rw [updatePhysicsAux]
    have hlt : ¬physicsTimestep ≤ acc := by
      intro hc
      push_cast at h
      linarith
    simp [hlt]
  | succ n ih =>
    intro s acc h
    rw [updatePhysicsAux]
    split
    · have hrec : acc - physicsTimestep < ((n : ℚ) + 1) * physicsTimestep := by
        push_cast at h ⊢
        linarith
      have := ih (stepFn s) (acc - physicsTimestep) hrec
      simpa using Nat.succ_le_succ this
    · simp

/-- The loop leaves the accumulator strictly below one timestep, so the
bound on the substep count applies to every later call as well. -/
theorem updatePhysicsAux_leftover {S : Type} (stepFn : S → S) (s : S)
    (acc : ℚ) : (updatePhysicsAux stepFn s acc).2.1 < physicsTimestep := by
  induction s, acc using updatePhysicsAux.induct stepFn with
  | case1 s acc h ih =>
    rw [updatePhysicsAux]
    simp only [dif_pos h]
    exact ih
  | case2 s acc h =>
    rw [updatePhysicsAux]
    simp only [dif_neg h]
    exact lt_of_not_le h

/-- C5.  From any reachable accumulator (strictly below one fixed
timestep, which the second conjunct re-establishes), one update call runs
at most ceil(maxDt / fixedDt) + 1 = 13 fixed substeps, whatever deltaTime
is passed in: the accumulator gain is capped at maxDt = 0.1 before the
catch-up loop. -/
theorem update_substeps_bounded (S : Type) (stepFn : S → S) (s : S)
    (acc deltaTime : ℚ) (hacc : acc < physicsTimestep) :
    (updatePhysics stepFn s acc deltaTime).2.2 ≤
      (⌈accumulatorCap / physicsTimestep⌉).toNat + 1 ∧
    (updatePhysics stepFn s acc deltaTime).2.1 < physicsTimestep := by
  constructor
  · have hceil : (⌈accumulatorCap / physicsTimestep⌉).toNat = 12 := by
      have h12 : ⌈accumulatorCap / physicsTimestep⌉ = 12 := by
        norm_num [accumulatorCap, physicsTimestep]
      rw [h12]
      rfl
    rw [hceil]
    show (updatePhysicsAux stepFn s (acc + min deltaTime accumulatorCap)).2.2 ≤ 13
    refine le_trans (updatePhysicsAux_count_le stepFn 12 s _ ?_) (by norm_num)
    have h1 : min deltaTime accumulatorCap ≤ accumulatorCap :=
      min_le_right _ _
    simp only [accumulatorCap] at h1
    simp only [accumulatorCap, physicsTimestep] at hacc ⊢
    push_cast
    linarith
  · exact updatePhysicsAux_leftover stepFn s _

/-- C5 witness: a fresh accumulator and a frame delta of 1/30 s. -/
theorem update_substeps_bounded_check :
    (0 : ℚ) < physicsTimestep ∧
    ((updatePhysics (fun u : Unit => u) () 0 (1 / 30)).2.2 ≤
        (⌈accumulatorCap / physicsTimestep⌉).toNat + 1 ∧
      (updatePhysics (fun u : Unit => u) () 0 (1 / 30)).2.1 <
        physicsTimestep) :=
  ⟨by norm_num [physicsTimestep],
    update_substeps_bounded Unit (fun u => u) () 0 (1 / 30)
      (by norm_num [physicsTimestep])⟩

/-! Base anchoring: no pass of the physics writes joint 0. -/

theorem applySplay_base (pressure : ℝ) (b : Bristle) :
    (applySplay pressure b).pos0 = b.pos0 ∧
    (applySplay pressure b).prev0 = b.prev0 := ⟨rfl, rfl⟩

theorem verletPass_base (p : BristleParams) (dt : ℝ) (b : Bristle) :
    (verletPass p dt b).pos0 = b.pos0 ∧
    (verletPass p dt b).prev0 = b.prev0 := ⟨rfl, rfl⟩

theorem stiffnessPass_base (p : BristleParams) (b : Bristle) :
    (stiffnessPass p b).pos0 = b.pos0 ∧
    (stiffnessPass p b).prev0 = b.prev0 := ⟨rfl, rfl⟩

theorem constraintSeg0_base (b : Bristle) :
    (constraintSeg0 b).pos0 = b.pos0 ∧
    (constraintSeg0 b).prev0 = b.prev0 := by
  unfold constraintSeg0
  dsimp only
  constructor <;> split <;> rfl

theorem constraintSeg1_base (b : Bristle) :
    (constraintSeg1 b).pos0 = b.pos0 ∧
    (constraintSeg1 b).prev0 = b.prev0 := by
  unfold constraintSeg1
  dsimp only
  constructor <;> split <;> rfl

theorem constraintSeg2_base (b : Bristle) :
    (constraintSeg2 b).pos0 = b.pos0 ∧
    (constraintSeg2 b).prev0 = b.prev0 := by
  unfold constraintSeg2
  dsimp only
  constructor <;> split <;> rfl

theorem satisfyDistanceConstraints_base (b : Bristle) :
    (satisfyDistanceConstraints b).pos0 = b.pos0 ∧
    (satisfyDistanceConstraints b).prev0 = b.prev0 := by
  unfold satisfyDistanceConstraints
  constructor
  · rw [(constraintSeg2_base _).1, (constraintSeg1_base _).1,
      (constraintSeg0_base _).1]
  · rw [(constraintSeg2_base _).2, (constraintSeg1_base _).2,
      (constraintSeg0_base _).2]

theorem satisfy_iterate_base (n : ℕ) (b : Bristle) :
    (satisfyDistanceConstraints^[n] b).pos0 = b.pos0 ∧
    (satisfyDistanceConstraints^[n] b).prev0 = b.prev0 := by
  induction n with
  | zero => exact ⟨rfl, rfl⟩
  | succ n ih =>
    rw [Function.iterate_succ_apply']
    exact ⟨(satisfyDistanceConstraints_base _).1.trans ih.1,
      (satisfyDistanceConstraints_base _).2.trans ih.2⟩

theorem stepPhysics_base (p : BristleParams) (dt : ℝ) (b : Bristle) :
    (stepPhysics p dt b).pos0 = b.pos0 ∧
    (stepPhysics p dt b).prev0 = b.prev0 := by
  unfold stepPhysics
  refine ⟨(satisfy_iterate_base _ _).1.trans ?_,
    (satisfy_iterate_base _ _).2.trans ?_⟩
  · rw [(stiffnessPass_base _ _).1, (verletPass_base _ _ _).1]
  · rw [(stiffnessPass_base _ _).2, (verletPass_base _ _ _).2]

/-- Invariant preservation through the fixed timestep catch-up loop. -/
theorem updatePhysicsAux_preserves {S : Type} (P : S → Prop)
    (stepFn : S → S) (hstep : ∀ x, P x → P (stepFn x)) (s : S) (acc : ℚ) :
    P s → P (updatePhysicsAux stepFn s acc).1 := by
  induction s, acc using updatePhysicsAux.induct stepFn with
  | case1 s acc h ih =>
    intro hs
    rw [updatePhysicsAux]
    simp only [dif_pos h]
    exact ih (hstep s hs)
  | case2 s acc h =>
    intro hs
    rw [updatePhysicsAux]
    simp only [dif_neg h]
    exact hs

theorem handleCollisionBristle_base (p : BristleParams) (idx : ℕ)
    (isContacting : Bool) (hit : Option CollisionHit) (b : Bristle) :
    (handleCollisionBristle p idx isContacting hit b).1.pos0 = b.pos0 ∧
    (handleCollisionBristle p idx isContacting hit b).1.prev0 = b.prev0 := by
  unfold handleCollisionBristle
  constructor <;> (repeat' split) <;>
    first
      | rfl
      | ((repeat' split) <;> rfl)
      | (simp_all; (repeat' split) <;> rfl)

/-- C3.  No part of a BristleSystem.update call writes the base joint:
neither the splay displacement, nor Verlet integration, nor the stiffness
blend, nor constraint projection, nor collision clamping touches the
position (or previous position) of joint 0. -/
theorem update_never_moves_base_joint :
    ∀ (p : BristleParams) (idx : ℕ) (pressure : ℝ) (isContacting : Bool)
      (hit : Option CollisionHit) (b : Bristle) (acc deltaTime : ℚ),
      (bristleUpdate p idx pressure isContacting hit b acc
          deltaTime).1.pos0 = b.pos0 ∧
      (bristleUpdate p idx pressure isContacting hit b acc
          deltaTime).1.prev0 = b.prev0 := by
  intro p idx pressure isContacting hit b acc deltaTime
  unfold bristleUpdate
  have hb1 : (if 0 < pressure then applySplay pressure b else b).pos0 = b.pos0 ∧
      (if 0 < pressure then applySplay pressure b else b).prev0 = b.prev0 := by
    split <;> exact ⟨rfl, rfl⟩
  have h2 := updatePhysicsAux_preserves
    (fun x => x.pos0 = b.pos0 ∧ x.prev0 = b.prev0)
    (stepPhysics p ((physicsTimestep : ℚ) : ℝ))
    (fun x hx => ⟨(stepPhysics_base _ _ _).1.trans hx.1,
      (stepPhysics_base _ _ _).2.trans hx.2⟩)
    _ (acc + min deltaTime accumulatorCap) hb1
  exact ⟨(handleCollisionBristle_base _ _ _ _ _).1.trans h2.1,
    (handleCollisionBristle_base _ _ _ _ _).2.trans h2.2⟩

/-! Constraint projection geometry. -/

theorem dot3_smul (c : ℝ) (v : Vec3) :
    dot3 (c • v) (c • v) = c ^ 2 * dot3 v v := by
  unfold dot3
  simp only [Prod.smul_fst, Prod.smul_snd, smul_eq_mul]
  ring

theorem norm3_smul (c : ℝ) (v : Vec3) : norm3 (c • v) = |c| * norm3 v := by
  unfold norm3
  rw [dot3_smul, Real.sqrt_mul (sq_nonneg c), Real.sqrt_sq_eq_abs]

theorem segmentLength_pos : 0 < segmentLength := by
  norm_num [segmentLength, bristleLength]

/-- A projected pair lands exactly at the rest segment length. -/
theorem constraintSeg2_exact (b : Bristle)
    (h : degenerateLen < norm3 (b.pos3 - b.pos2)) :
    norm3 ((constraintSeg2 b).pos3 - (constraintSeg2 b).pos2) =
      segmentLength := by
  have hlen0 : 0 < norm3 (b.pos3 - b.pos2) :=
    lt_trans (by norm_num [degenerateLen]) h
  unfold constraintSeg2
  rw [if_pos h]
  dsimp only
  set d : Vec3 := b.pos3 - b.pos2 with hd
  set hc : ℝ := (segmentLength - norm3 d) / norm3 d * (1 / 2) with hhc
  have hcomb : b.pos3 + hc • d - (b.pos2 - hc • d) = (1 + 2 * hc) • d := by
    rw [add_smul, one_smul,
      show (2 * hc) • d = hc • d + hc • d by rw [two_mul, add_smul], hd]
    abel
  rw [hcomb, norm3_smul]
  have hfac : 1 + 2 * hc = segmentLength / norm3 d := by
    rw [hhc]
    field_simp
    ring
  rw [hfac, abs_of_nonneg (le_of_lt (div_pos segmentLength_pos hlen0)),
    div_mul_cancel₀ _ (ne_of_gt hlen0)]

/-- A degenerate pair (length at or below the threshold) is skipped. -/
theorem constraintSeg2_skip (b : Bristle)
    (h : norm3 (b.pos3 - b.pos2) ≤ degenerateLen) : constraintSeg2 b = b := by
  unfold constraintSeg2
  rw [if_neg (not_lt.mpr h)]

/-- C4 (amended).  The constraint solver ends every physics step with the
projection of the last segment, and a single projection is exact: a
projected segment ends at exactly the rest length (deviation 0) whenever
its current length is above the degeneracy threshold 1e-5, while a
segment at or below the threshold is skipped unchanged, so no uniform
tolerance holds for degenerate segments. -/
theorem constraint_solver_last_segment :
    (∀ (p : BristleParams) (dt : ℝ) (b : Bristle),
      stepPhysics p dt b =
        constraintSeg2 (constraintSeg1 (constraintSeg0
          (satisfyDistanceConstraints^[3]
            (stiffnessPass p (verletPass p dt b)))))) ∧
    (∀ b : Bristle, degenerateLen < norm3 (b.pos3 - b.pos2) →
      norm3 ((constraintSeg2 b).pos3 - (constraintSeg2 b).pos2) =
        segmentLength) ∧
    (∀ b : Bristle, norm3 (b.pos3 - b.pos2) ≤ degenerateLen →
      constraintSeg2 b = b) := by
  refine ⟨?_, constraintSeg2_exact, constraintSeg2_skip⟩
  intro p dt b
  unfold stepPhysics
  rw [show constraintIterations = 3 + 1 from rfl,
    Function.iterate_succ_apply']
  rfl

/-! The collapsed-bristle evaluation behind the C4 counterexample. -/

theorem bC4_gravity :
    gravity * ((physicsTimestep : ℚ) : ℝ) * ((physicsTimestep : ℚ) : ℝ) =
      -(1 / 720000) := by
  rw [gravity, physicsTimestep]
  push_cast
  norm_num

theorem bC4_verletJoint :
    verletJoint (23 / 25) (-(1 / 720000)) vC4 pC4 = vC4 := by
  unfold verletJoint vC4 pC4
  simp only [Prod.mk_sub_mk, Prod.smul_mk, smul_eq_mul, Prod.mk_add_mk,
    Prod.mk.injEq]
  norm_num

theorem bC4_verlet :
    verletPass centerParams ((physicsTimestep : ℚ) : ℝ) bC4 = bC4mid := by
  unfold verletPass
  rw [bC4_gravity]
  show Bristle.mk _ _ _ _ _ _ _ _ = _
  unfold bC4 bC4mid
  simp only [centerParams]
  rw [bC4_verletJoint]

theorem bC4_stiffnessJoint :
    stiffnessJoint (11 / 50) ((0 : ℝ), (0 : ℝ), (1 : ℝ)) vzero vC4 =
      vzero := by
  unfold stiffnessJoint vzero vC4
  simp only [Prod.smul_mk, smul_eq_mul, Prod.mk_add_mk, Prod.mk_sub_mk,
    Prod.mk.injEq]
  norm_num [segmentLength, bristleLength]

theorem bC4_stiffness : stiffnessPass centerParams bC4mid = bC4end := by
  unfold stiffnessPass centerParams
  show Bristle.mk _ _ _ _ _ _ _ _ = _
  unfold bC4mid bC4end
  dsimp only
  rw [bC4_stiffnessJoint, bC4_stiffnessJoint, bC4_stiffnessJoint]

theorem norm3_vzero_sub : norm3 (vzero - vzero) = 0 := by
  unfold norm3 dot3 vzero
  simp only [Prod.mk_sub_mk, sub_zero, sub_self]
  norm_num [Real.sqrt_zero]

theorem bC4_constraints : satisfyDistanceConstraints bC4end = bC4end := by
  have hskip : ∀ f : Bristle → Bristle,
      (∀ c : Bristle, c.pos0 = vzero → c.pos1 = vzero → c.pos2 = vzero →
        c.pos3 = vzero → f c = c) → True := fun _ _ => trivial
  unfold satisfyDistanceConstraints
  have h0 : constraintSeg0 bC4end = bC4end := by
    unfold constraintSeg0
    rw [if_neg]
    rw [show bC4end.pos1 - bC4end.pos0 = vzero - vzero from rfl,
      norm3_vzero_sub]
    norm_num [degenerateLen]
  have h1 : constraintSeg1 bC4end = bC4end := by
    unfold constraintSeg1
    rw [if_neg]
    rw [show bC4end.pos2 - bC4end.pos1 = vzero - vzero from rfl,
      norm3_vzero_sub]
    norm_num [degenerateLen]
  have h2 : constraintSeg2 bC4end = bC4end := by
    unfold constraintSeg2
    rw [if_neg]
    rw [show bC4end.pos3 - bC4end.pos2 = vzero - vzero from rfl,
      norm3_vzero_sub]
    norm_num [degenerateLen]
  rw [h0, h1, h2]

theorem bC4_step :
    stepPhysics centerParams ((physicsTimestep : ℚ) : ℝ) bC4 = bC4end := by
  unfold stepPhysics
  rw [bC4_verlet, bC4_stiffness,
    Function.iterate_fixed bC4_constraints]

/-- C4 counterexample: from the collapsing configuration bC4 a physics
step ends with every segment at length 0 (the solver skips segments at or
below its degeneracy threshold), so the middle segment deviates from the
rest length by the full rest length and no tolerance below the rest
length holds. -/
theorem stepPhysics_tolerance_counterexample :
    norm3 ((stepPhysics centerParams ((physicsTimestep : ℚ) : ℝ) bC4).pos2 -
        (stepPhysics centerParams ((physicsTimestep : ℚ) : ℝ) bC4).pos1) =
      0 ∧
    |norm3 ((stepPhysics centerParams ((physicsTimestep : ℚ) : ℝ) bC4).pos2 -
        (stepPhysics centerParams ((physicsTimestep : ℚ) : ℝ) bC4).pos1) -
      segmentLength| = segmentLength ∧
    0 < segmentLength := by
  have hz : norm3 ((stepPhysics centerParams ((physicsTimestep : ℚ) : ℝ)
      bC4).pos2 -
      (stepPhysics centerParams ((physicsTimestep : ℚ) : ℝ) bC4).pos1) = 0 := by
    rw [bC4_step]
    exact norm3_vzero_sub
  refine ⟨hz, ?_, segmentLength_pos⟩
  rw [hz, zero_sub, abs_neg, abs_of_pos segmentLength_pos]

/-! Inertness of a frame whose pointer ray misses the surface. -/

theorem getBrushTransform_miss (camPos rayDir tipOff : Vec3)
    (isDown : Bool) (sp : ℝ) :
    getBrushTransform camPos rayDir tipOff isDown sp none =
      { position := camPos + defaultDistance • rayDir + tipOff,
        normal := ((0 : ℝ), (1 : ℝ), (0 : ℝ)),
        surfacePoint := camPos + defaultDistance • rayDir + tipOff,
        uv := none, pressure := 0, isValid := false } := rfl

theorem handleCollisionBristle_not_contacting (p : BristleParams) (idx : ℕ)
    (hit : Option CollisionHit) (b : Bristle) :
    handleCollisionBristle p idx false hit b = (b, []) := by
  unfold handleCollisionBristle
  rw [if_pos]
  simp

theorem bristleUpdate_not_contacting (p : BristleParams) (idx : ℕ)
    (pressure : ℝ) (hit : Option CollisionHit) (b : Bristle)
    (acc deltaTime : ℚ) :
    (bristleUpdate p idx pressure false hit b acc deltaTime).2.2 = [] := by
  unfold bristleUpdate
  dsimp only
  rw [handleCollisionBristle_not_contacting]

theorem smul4_one (v : Vec4) : smul4 1 v = v := by
  unfold smul4
  simp

/-- Advecting a still field keeps it still, whatever the source of the
velocities sampled. -/
theorem advect_keeps_still (velTex srcTex : Tex) (dt diss : ℝ)
    (hsrc : velXYZeroTex srcTex) :
    velXYZeroTex (advect velTex srcTex dt diss) := by
  intro uv
  unfold advect smul4
  dsimp only
  exact ⟨by rw [(hsrc _).1, mul_zero], by rw [(hsrc _).2, mul_zero]⟩

/-- Advection along a still velocity field with dissipation one samples
each texel in place: the source field comes back unchanged. -/
theorem advect_of_still (velTex srcTex : Tex) (dt : ℝ)
    (hv : velXYZeroTex velTex) : advect velTex srcTex dt 1 = srcTex := by
  funext uv
  unfold advect
  dsimp only
  rw [(hv uv).1, (hv uv).2]
  rw [show uv.1 - 0 * dt * (1 / 2) = uv.1 by ring,
    show uv.2 - 0 * dt * (1 / 2) = uv.2 by ring]
  rw [smul4_one]

/-- With a still velocity field, one solver step leaves the paint field
untouched and the velocity field still: the self-advection scales a zero
field, the paint advection samples in place with dissipation one, the
divergence of the zero field vanishes, the Jacobi iterations keep the
cleared pressure at zero, and the gradient subtraction subtracts zero. -/
theorem step_preserves_paint_when_still (fs : FluidState) (dt : ℝ)
    (hv : velXYZeroTex fs.velocity.read) :
    (fs.step dt).paint.read = fs.paint.read ∧
    velXYZeroTex (fs.step dt).velocity.read := by
  set dtc := min dt (33 / 1000) with hdtc
  have hvel1 : velXYZeroTex
      (advect fs.velocity.read fs.velocity.read dtc velocityDissipation) :=
    advect_keeps_still _ _ _ _ hv
  have hpaint : advect
      (advect fs.velocity.read fs.velocity.read dtc velocityDissipation)
      fs.paint.read dtc paintDissipation = fs.paint.read := by
    rw [show paintDissipation = (1 : ℝ) from rfl]
    exact advect_of_still _ _ _ hvel1
  have hdiv : ∀ uv, (divergenceShader
      (advect fs.velocity.read fs.velocity.read dtc velocityDissipation)
      uv).x = 0 := by
    intro uv
    unfold divergenceShader
    dsimp only
    rw [(hvel1 (uv.1 - texelSize.1, uv.2)).1,
      (hvel1 (uv.1 + texelSize.1, uv.2)).1,
      (hvel1 (uv.1, uv.2 + texelSize.2)).2,
      (hvel1 (uv.1, uv.2 - texelSize.2)).2]
    norm_num
  have hjac : ∀ n (uv : ℝ × ℝ),
      (((jacobiPass (divergenceShader
          (advect fs.velocity.read fs.velocity.read dtc
            velocityDissipation)))^[n]
        (⟨zeroTex, fs.pressure.write⟩ : DoubleFBO)).read uv).x = 0 := by
    intro n
    induction n with
    | zero => intro uv; rfl
    | succ n ih =>
      intro uv
      rw [Function.iterate_succ_apply']
      show (pressureShader _ _ uv).x = 0
      unfold pressureShader
      dsimp only
      rw [ih (uv.1 - texelSize.1, uv.2), ih (uv.1 + texelSize.1, uv.2),
        ih (uv.1, uv.2 + texelSize.2), ih (uv.1, uv.2 - texelSize.2), hdiv]
      norm_num
  refine ⟨hpaint, ?_⟩
  intro uv
  show (gradientSubtractShader _ _ uv).x = 0 ∧
    (gradientSubtractShader _ _ uv).y = 0
  unfold gradientSubtractShader
  dsimp only
  constructor
  · rw [hjac pressureIterations (uv.1 - texelSize.1, uv.2),
      hjac pressureIterations (uv.1 + texelSize.1, uv.2), (hvel1 uv).1]
    norm_num
  · rw [hjac pressureIterations (uv.1, uv.2 + texelSize.2),
      hjac pressureIterations (uv.1, uv.2 - texelSize.2), (hvel1 uv).2]
    norm_num

set_option maxHeartbeats 2000000 in
/-- C6.  When the pointer ray misses the nail mesh, getBrushTransform
returns an invalid pose positioned at the fixed default distance along
the view ray with zero pressure and no uv; an update frame fed that miss
produces no contact points; and as long as the velocity field is still
(which holds from the start while nothing is ever splatted, and which the
frame re-establishes), the paint field is unchanged by the frame. -/
theorem pointer_miss_inert (s : BrushState) (deltaTimeRaw : ℚ)
    (camPos rayDir tipOff : Vec3) (colHit : Option CollisionHit)
    (hact : s.isActive = true) (hatt : s.inputAttached = true)
    (hvel : ∀ f, s.fluidSim = some f → velXYZeroTex f.velocity.read) :
    (∀ (isDown : Bool) (sp : ℝ),
      (getBrushTransform camPos rayDir tipOff isDown sp none).isValid =
        false ∧
      (getBrushTransform camPos rayDir tipOff isDown sp none).pressure = 0 ∧
      (getBrushTransform camPos rayDir tipOff isDown sp none).uv = none ∧
      (getBrushTransform camPos rayDir tipOff isDown sp none).position =
        camPos + defaultDistance • rayDir + tipOff) ∧
    (brushUpdate s deltaTimeRaw camPos rayDir tipOff none colHit).2 = [] ∧
    Option.map (fun f => f.paint.read)
      (brushUpdate s deltaTimeRaw camPos rayDir tipOff none
        colHit).1.fluidSim =
      Option.map (fun f => f.paint.read) s.fluidSim ∧
    (∀ f,
      (brushUpdate s deltaTimeRaw camPos rayDir tipOff none
          colHit).1.fluidSim = some f → velXYZeroTex f.velocity.read) := by
  refine ⟨fun isDown sp => ⟨rfl, rfl, rfl, rfl⟩, ?_⟩
  rcases hfs : s.fluidSim with _ | fs
  · by_cases huse : s.useFluidSim = true <;>
      refine ⟨?_, ?_, ?_⟩ <;>
      simp [brushUpdate, hact, hatt, hfs, huse, getBrushTransform_miss,
        bristleUpdate_not_contacting, apply_ite BrushState.fluidSim,
        apply_ite BrushState.isPainting, apply_ite BrushState.isContacting,
        apply_ite BrushState.bristlePressure,
        apply_ite BrushState.useFluidSim,
        apply_ite BrushState.bristleParams, apply_ite BrushState.bristle,
        apply_ite BrushState.bristleAcc, apply_ite BrushState.nailPresent,
        apply_ite BrushState.applicator]
  · have hstill := step_preserves_paint_when_still fs
      ((deltaTimeRaw : ℝ) ⊓ 20⁻¹) (hvel fs hfs)
    by_cases huse : s.useFluidSim = true <;>
      refine ⟨?_, ?_, ?_⟩ <;>
      (simp [brushUpdate, hact, hatt, hfs, huse, getBrushTransform_miss,
        bristleUpdate_not_contacting, apply_ite BrushState.fluidSim,
        apply_ite BrushState.isPainting, apply_ite BrushState.isContacting,
        apply_ite BrushState.bristlePressure,
        apply_ite BrushState.useFluidSim,
        apply_ite BrushState.bristleParams, apply_ite BrushState.bristle,
        apply_ite BrushState.bristleAcc, apply_ite BrushState.nailPresent,
        apply_ite BrushState.applicator, hstill.1] <;>
      first
        | exact hstill.2
        | exact hvel fs hfs
        | (intro f hf; rw [← hf]; first | exact hstill.2 | exact hvel fs hfs))

/-- C6 witness: an active state with a fresh (cleared) fluid simulator
and a frame whose raycast misses. -/
theorem pointer_miss_inert_check :
    stateC6.isActive = true ∧ stateC6.inputAttached = true ∧
    (∀ f, stateC6.fluidSim = some f → velXYZeroTex f.velocity.read) ∧
    ((∀ (isDown : Bool) (sp : ℝ),
      (getBrushTransform vzero dirC6 tipC6 isDown sp none).isValid = false ∧
      (getBrushTransform vzero dirC6 tipC6 isDown sp none).pressure = 0 ∧
      (getBrushTransform vzero dirC6 tipC6 isDown sp none).uv = none ∧
      (getBrushTransform vzero dirC6 tipC6 isDown sp none).position =
        vzero + defaultDistance • dirC6 + tipC6) ∧
    (brushUpdate stateC6 (1 / 60) vzero dirC6 tipC6 none none).2 = [] ∧
    Option.map (fun f => f.paint.read)
      (brushUpdate stateC6 (1 / 60) vzero dirC6 tipC6 none
        none).1.fluidSim =
      Option.map (fun f => f.paint.read) stateC6.fluidSim ∧
    (∀ f,
      (brushUpdate stateC6 (1 / 60) vzero dirC6 tipC6 none
          none).1.fluidSim = some f → velXYZeroTex f.velocity.read)) := by
  have hv : ∀ f, stateC6.fluidSim = some f → velXYZeroTex f.velocity.read := by
    intro f hf uv
    have : FluidState.initial = f := by
      have h : some FluidState.initial = some f := hf
      injection h
    rw [← this]
    exact ⟨rfl, rfl⟩
  exact ⟨rfl, rfl, hv,
    pointer_miss_inert stateC6 (1 / 60) vzero dirC6 tipC6 none rfl rfl hv⟩

end NailSalon
